import Mathlib

/-!
Shallow embedding of the e-voting backend (`app/` package) in Lean 4,
with theorems checking the specification's claims about it.

Conventions of the embedding:
* SQLAlchemy rows become Lean structures; nullable columns become `Option`.
* The database session is a `DB` record of row lists; a query `.filter(...).first()`
  becomes `List.find?`, `.all()` becomes `List.filter`.
* `datetime` values are modelled as `Dt`: a wall-clock reading (an abstract
  integer tick) plus an optional timezone offset (`none` = naive,
  `some 0` = UTC-aware).  Comparisons between datetimes compare instants,
  with naive values read as UTC (the code stores and compares UTC wall clocks).
* Nondeterministic inputs of an endpoint (current time `datetime.utcnow()`,
  the uuid-derived receipt string, the fresh primary key) are passed as
  explicit parameters.
* An endpoint raising `HTTPException` is modelled as `Except`/a sum returning
  the corresponding domain error; a raise before any `db.add`/`db.commit`
  leaves the database unchanged.
-/

namespace EVoting

/-- Model of a Python `datetime`: `wall` is the clock reading, `tz` the
attached offset (`none` for naive values, `some o` for aware ones). -/
structure Dt where
  wall : Int
  tz : Option Int
  deriving DecidableEq, Repr

/-- The instant a `Dt` denotes, with naive values read as UTC
(the repository stores UTC wall clocks and compares them with
`datetime.utcnow()`). -/
def Dt.instant (d : Dt) : Int :=
  d.wall - d.tz.getD 0

/-- `to_utc` from `app/routers/admin.py`: a naive datetime is tagged as UTC
keeping its wall clock; an aware one is converted to UTC via `astimezone`. -/
def to_utc (d : Dt) : Dt :=
  match d.tz with
  | none => { wall := d.wall, tz := some 0 }
  | some o => { wall := d.wall - o, tz := some 0 }

/-- Row of the `users` table (`app/models.py`). -/
structure User where
  id : Nat
  name : String
  email : String
  student_id : Option String
  level : Option String
  course : Option String
  hashed_password : String
  role : String
  deriving DecidableEq, Repr

/-- Row of the `elections` table (`app/models.py`). -/
structure Election where
  id : Nat
  title : String
  start_date : Dt
  end_date : Dt
  status : String
  deriving DecidableEq, Repr

/-- Row of the `candidates` table (`app/models.py`). -/
structure Candidate where
  id : Nat
  election_id : Nat
  name : String
  level : Option String
  position : String
  manifesto : Option String
  photo_url : Option String
  deriving DecidableEq, Repr

/-- Row of the `votes` table (`app/models.py`).  The `position` column is
declared `nullable=False` in the schema, but at the ORM level a `Vote`
object can be constructed without it, which leaves the attribute `None`;
we therefore model the field as `Option String` and express the schema's
NOT NULL rule separately (`votes_position_not_null`). -/
structure Vote where
  id : Nat
  user_id : Nat
  candidate_id : Nat
  election_id : Nat
  position : Option String
  timestamp : Int
  receipt_id : String
  deriving DecidableEq, Repr

/-- Row of the `audit_logs` table (`app/models.py`). -/
structure AuditLog where
  user_email : String
  action : String
  status : String
  details : String
  deriving DecidableEq, Repr

/-- The persistent store: one list per table. -/
structure DB where
  users : List User
  elections : List Election
  candidates : List Candidate
  votes : List Vote
  audit_logs : List AuditLog
  deriving DecidableEq, Repr

/-- Key of the uniqueness constraint `uq_user_election_position_vote`
on `(user_id, election_id, position)`. -/
def voteKey (v : Vote) : Nat × Nat × Option String :=
  (v.user_id, v.election_id, v.position)

/-- Does a list contain two entries (at distinct positions) with the same
value?  Used to state the uniqueness constraints of the schema. -/
def hasDup {α : Type} [DecidableEq α] : List α → Bool
  | [] => false
  | x :: xs => decide (x ∈ xs) || hasDup xs

/-- Schema rule: `votes.position` is `nullable=False`. -/
def votes_position_not_null (votes : List Vote) : Bool :=
  votes.all fun v => v.position ≠ none

/-- Schema rule: the uniqueness constraint `uq_user_election_position_vote`
holds, i.e. no two vote rows share `(user_id, election_id, position)`. -/
def uq_user_election_position_vote (votes : List Vote) : Bool :=
  !hasDup (votes.map voteKey)

/-- Domain errors raised by `cast_vote` (`app/routers/elections.py`,
lines 60-94), one constructor per `raise HTTPException` site.
`alreadyVoted` is the duplicate-vote rejection, the error the spec's
taxonomy calls `Conflict` (it is sent with HTTP status 400 and detail
"User already voted in this election"). -/
inductive VoteError where
  | forbidden : VoteError
  | notFound : VoteError
  | notActive : VoteError
  | alreadyVoted : VoteError
  | badCandidateList : VoteError
  | invalidCandidate : VoteError
  deriving DecidableEq, Repr

/-- Validation phase of `cast_vote` (`app/routers/elections.py`, lines 60-94):
returns the first failing check's error, or `none` when all checks pass.
`payload.get("candidate_ids", [])` is modelled as the list `candidate_ids`
(the `isinstance` test cannot fail for a list). -/
def cast_vote_checks (db : DB) (current_user : User) (election_id : Nat)
    (candidate_ids : List Nat) (now : Int) : Option VoteError :=
  if current_user.role ≠ "voter" then some .forbidden
  else match db.elections.find? (fun e => e.id == election_id) with
  | none => some .notFound
  | some election =>
    if ¬ (election.start_date.instant ≤ now ∧ now ≤ election.end_date.instant) then
      some .notActive
    else if (db.votes.find? (fun v =>
        v.user_id == current_user.id && v.election_id == election_id)).isSome then
      some .alreadyVoted
    else if candidate_ids.isEmpty then
      some .badCandidateList
    else
      let valid_candidates := db.candidates.filter (fun c =>
        candidate_ids.contains c.id && c.election_id == election_id)
      if valid_candidates.length ≠ candidate_ids.length then
        some .invalidCandidate
      else none

/-- The Vote rows built by `cast_vote` (`app/routers/elections.py`,
lines 98-105): one per candidate id, all sharing `receipt`.  The
constructor call sets `user_id`, `candidate_id`, `election_id` and
`receipt_id` only — `position` is never assigned, so it is `none`. -/
def cast_vote_rows (current_user : User) (election_id : Nat)
    (candidate_ids : List Nat) (now : Int) (receipt : String)
    (firstId : Nat) : List Vote :=
  (List.range candidate_ids.length).zip candidate_ids |>.map fun p =>
    { id := firstId + p.1
      user_id := current_user.id
      candidate_id := p.2
      election_id := election_id
      position := none
      timestamp := now
      receipt_id := receipt }

/-- The success-path audit entry of `cast_vote`
(`app/routers/elections.py`, lines 108-113). -/
def cast_vote_audit (current_user : User) (election_id : Nat)
    (candidate_ids : List Nat) : AuditLog :=
  { user_email := current_user.email
    action := "Submit Vote"
    status := "success"
    details := s!"Voted for candidates {candidate_ids} in election {election_id}" }

/-- `cast_vote` (`app/routers/elections.py`, lines 51-117) at the ORM level:
run the validation; on failure raise (database untouched — every raise in the
code happens before any `db.add`); on success add one Vote row per candidate
id plus the audit entry, and return the shared receipt.
`now` stands for `datetime.utcnow()`, `receipt` for the
`f"VOTE-{year}-{uuid4().hex[:10].upper()}"` string, `firstId` for the
autoincrement key of the first new row. -/
def cast_vote (db : DB) (current_user : User) (election_id : Nat)
    (candidate_ids : List Nat) (now : Int) (receipt : String)
    (firstId : Nat) : Except VoteError (DB × String) :=
  match cast_vote_checks db current_user election_id candidate_ids now with
  | some e => .error e
  | none =>
    .ok ({ db with
            votes := db.votes ++
              cast_vote_rows current_user election_id candidate_ids now receipt firstId
            audit_logs := db.audit_logs ++
              [cast_vote_audit current_user election_id candidate_ids] },
         receipt)

/-- Database state observed after a `cast_vote` request completes:
the committed state on success, the unchanged state on a raised error. -/
def cast_vote_result_db (db : DB) (current_user : User) (election_id : Nat)
    (candidate_ids : List Nat) (now : Int) (receipt : String)
    (firstId : Nat) : DB :=
  match cast_vote db current_user election_id candidate_ids now receipt firstId with
  | .ok (db', _) => db'
  | .error _ => db

/-- Outcome of a full `cast_vote` transaction including the `db.commit()` of
line 115, which the code does not wrap in any exception handler: a
constraint violation detected by the storage engine at commit surfaces as
the uncaught `storageError` (an `IntegrityError` propagating to the
framework), not as any of the endpoint's `HTTPException`s. -/
inductive CastOutcome where
  | httpError : VoteError → CastOutcome
  | committed : DB → String → CastOutcome
  | storageError : CastOutcome
  deriving DecidableEq, Repr

/-- `db.commit()` on the votes table: the storage engine accepts the new
table contents only when the schema's constraints hold — the uniqueness
constraint `uq_user_election_position_vote` and `position NOT NULL`
(`app/models.py`, lines 76 and 84-87). -/
def sql_commit_votes (votes : List Vote) : Bool :=
  uq_user_election_position_vote votes && votes_position_not_null votes

/-- `cast_vote` as a transaction against shared storage: the validation reads
the session's snapshot `dbRead`, while the insert commits against
`dbCommit` — the table as left by transactions that committed after this
request's snapshot was read (modelling the check/insert race of spec §5).
The code has no try/except around `db.commit()`, so a constraint violation
at commit yields `storageError`, never a translated domain error. -/
def cast_vote_tx (dbRead dbCommit : DB) (current_user : User)
    (election_id : Nat) (candidate_ids : List Nat) (now : Int)
    (receipt : String) (firstId : Nat) : CastOutcome :=
  match cast_vote_checks dbRead current_user election_id candidate_ids now with
  | some e => .httpError e
  | none =>
    let newVotes := dbCommit.votes ++
      cast_vote_rows current_user election_id candidate_ids now receipt firstId
    if sql_commit_votes newVotes then
      .committed { dbCommit with
          votes := newVotes
          audit_logs := dbCommit.audit_logs ++
            [cast_vote_audit current_user election_id candidate_ids] }
        receipt
    else .storageError

/-- `get_election_status` (`app/routers/admin.py`, lines 24-31), with the
current time passed explicitly: first-match on `start_date > now`
(upcoming), then `end_date < now` (ended), else active. -/
def get_election_status (e : Election) (now : Int) : String :=
  if e.start_date.instant > now then "upcoming"
  else if e.end_date.instant < now then "ended"
  else "active"

/-- Replace the persisted `status` field of the election with id `eid`,
leaving every other field and table untouched: the two states related by
this function "differ only in an election's persisted status field". -/
def set_election_status (db : DB) (eid : Nat) (σ : String) : DB :=
  { db with elections := db.elections.map fun e =>
      if e.id == eid then { e with status := σ } else e }

/-- Audit entry of `create_election` (`app/routers/admin.py`, lines 76-81). -/
def create_election_audit (admin_email title : String) : AuditLog :=
  { user_email := admin_email
    action := "Create Election"
    status := "success"
    details := s!"Created election {title}" }

/-- `create_election` (`app/routers/admin.py`, lines 55-84): both timestamps
are forced to UTC via `to_utc`, the initial status is computed by
`get_election_status`, the row and an audit entry are committed.  There is
no validation of the dates: the function cannot fail. -/
def create_election (db : DB) (admin_email : String) (title : String)
    (start_date end_date : Dt) (now : Int) (newId : Nat) : DB × Election :=
  let start_utc := to_utc start_date
  let end_utc := to_utc end_date
  let ev0 : Election :=
    { id := newId, title := title, start_date := start_utc,
      end_date := end_utc, status := "upcoming" }
  let ev := { ev0 with status := get_election_status ev0 now }
  ({ db with
      elections := db.elections ++ [ev]
      audit_logs := db.audit_logs ++ [create_election_audit admin_email title] },
   ev)

/-- Python truthiness of an optional string: `None` and `""` are falsy. -/
def pyTruthy : Option String → Bool
  | none => false
  | some s => s ≠ ""

/-- Python's `str.upper()` on the ASCII identifiers this code handles:
uppercase each character. -/
def pyUpper (s : String) : String :=
  String.mk (s.data.map Char.toUpper)

/-- Python's `str.startswith(p)`: `p` is a prefix of `s`. -/
def strStartsWith (s p : String) : Bool :=
  p.data.isPrefixOf s.data

/-- SQLAlchemy's rendering of `Column == value` when `value` is a Python
optional: comparing against `None` emits `IS NULL` (true exactly on NULL
cells), while comparing against a string emits SQL equality (false on NULL
cells). -/
def sa_eq (col : Option String) (value : Option String) : Bool :=
  match value with
  | none => col.isNone
  | some v => col == some v

/-- Request body of `POST /users/register` (`app/schemas.py`, `UserCreate`):
the `role` field is accepted by the schema but ignored on registration. -/
structure UserCreate where
  name : String
  email : String
  password : String
  student_id : Option String
  level : Option String
  course : Option String
  role : String
  deriving DecidableEq, Repr

/-- Domain errors of registration/auditor creation: `invalidInput` is the
HTTP 400 "Course is required for HND students", `conflict` the HTTP 409
"Email or Student ID already registered". -/
inductive RegError where
  | invalidInput : RegError
  | conflict : RegError
  deriving DecidableEq, Repr

/-- `register_user` (`app/routers/users.py`, lines 9-49).  The HND gate is
`if user_in.level and user_in.level.upper().startswith("HND") and not
user_in.course`; the uniqueness pre-check filters on
`(User.email == user_in.email) | (User.student_id == user_in.student_id)`,
where the second comparison follows SQLAlchemy's `IS NULL` rendering
(`sa_eq`).  On success the row is inserted with `role="voter"` regardless
of `user_in.role`, together with a success audit entry.  `hashed` stands
for `get_password_hash(user_in.password)`. -/
def register_user (db : DB) (user_in : UserCreate) (hashed : String)
    (newId : Nat) : Except RegError (DB × User) :=
  if pyTruthy user_in.level
      && strStartsWith (pyUpper (user_in.level.getD "")) "HND"
      && !pyTruthy user_in.course then
    .error .invalidInput
  else if (db.users.find? (fun x =>
      x.email == user_in.email || sa_eq x.student_id user_in.student_id)).isSome then
    .error .conflict
  else
    let user : User :=
      { id := newId, name := user_in.name, email := user_in.email,
        student_id := user_in.student_id, level := user_in.level,
        course := user_in.course, hashed_password := hashed, role := "voter" }
    .ok ({ db with
            users := db.users ++ [user]
            audit_logs := db.audit_logs ++
              [{ user_email := user_in.email, action := "User Registration",
                 status := "success",
                 details := s!"Registered voter {user_in.email}" }] },
         user)

/-- `create_auditor` (`app/routers/admin.py`, lines 175-199): only the email
is checked for uniqueness; the created user carries no `student_id` (the
column stays NULL), no level, no course, and role `auditor`. -/
def create_auditor (db : DB) (admin_email : String) (user_in : UserCreate)
    (hashed : String) (newId : Nat) : Except RegError (DB × User) :=
  if (db.users.find? (fun x => x.email == user_in.email)).isSome then
    .error .conflict
  else
    let auditor : User :=
      { id := newId, name := user_in.name, email := user_in.email,
        student_id := none, level := none, course := none,
        hashed_password := hashed, role := "auditor" }
    .ok ({ db with
            users := db.users ++ [auditor]
            audit_logs := db.audit_logs ++
              [{ user_email := admin_email, action := "Create Auditor",
                 status := "success",
                 details := s!"Created auditor {user_in.email}" }] },
         auditor)

/-- `authenticate_user` (`app/auth.py`, lines 77-92): look the user up by
email OR student_id (SQL equality — a NULL `student_id` matches nothing),
then check the password with the opaque hasher's `verify`; both "no such
user" and "wrong password" return `none`. -/
def authenticate_user (db : DB) (verify : String → String → Bool)
    (identifier password : String) : Option User :=
  match db.users.find? (fun u =>
      u.email == identifier || u.student_id == some identifier) with
  | none => none
  | some user =>
    if ¬ verify password user.hashed_password then none
    else some user

/-! ### Concrete fixtures used by witnesses and counterexamples -/

/-- A registered voter. -/
def voterAl : User :=
  ⟨1, "Al", "al@x.com", some "S1", some "ND1", some "CS", "h", "voter"⟩

/-- An admin user (not a voter). -/
def adminAd : User :=
  ⟨2, "Ad", "ad@x.com", none, none, none, "h", "admin"⟩

/-- An election open from tick 0 to tick 100. -/
def electionGE : Election :=
  ⟨1, "GE", ⟨0, none⟩, ⟨100, none⟩, "upcoming"⟩

/-- Candidate for President in `electionGE`. -/
def candA : Candidate :=
  ⟨10, 1, "A", none, "President", none, none⟩

/-- Candidate for VicePresident in `electionGE`. -/
def candB : Candidate :=
  ⟨20, 1, "B", none, "VicePresident", none, none⟩

/-- Base state: one voter, one open election with two candidates, no votes
yet, empty audit log. -/
def dbBase : DB :=
  ⟨[voterAl], [electionGE], [candA, candB], [], []⟩

/-! ### Helper lemmas -/

/-- A list whose membership includes an element satisfying `p` has a
successful `find?`. -/
theorem find?_isSome_of_mem {α : Type} {p : α → Bool} {l : List α} {x : α}
    (hx : x ∈ l) (hpx : p x = true) : (l.find? p).isSome = true := by
  induction l with
  | nil => cases hx
  | cons a l ih =>
    cases hx with
    | head =>
      simp only [List.find?, hpx]
      rfl
    | tail _ h =>
      cases hpa : p a with
      | true => simp only [List.find?, hpa]; rfl
      | false => simp only [List.find?, hpa]; exact ih h

/-- `find?` commutes with mapping a function that does not change the
predicate's verdict. -/
theorem find?_map_of_pred_eq {α : Type} (f : α → α) (p : α → Bool)
    (hp : ∀ a, p (f a) = p a) (l : List α) :
    (l.map f).find? p = (l.find? p).map f := by
  induction l with
  | nil => rfl
  | cons a l ih =>
    simp only [List.map_cons, List.find?, hp a]
    cases hpa : p a <;> simp [ih]

/-! ### C1 -/

/-- C1: a successful `cast_vote` with candidate_ids `[10, 20]` does create
exactly two Vote rows sharing the one receipt, but the code never assigns
the `position` attribute, so both rows carry `position = none` instead of
their own candidate's position ("President" / "VicePresident"), and the
resulting table violates the schema's `position NOT NULL` rule — refuting
the claim that each row's position equals its own candidate's position. -/
theorem c1_cast_vote_rows_missing_position :
    ((cast_vote dbBase voterAl 1 [10, 20] 50 "VOTE-2025-AB12CD34EF" 1).map fun p =>
        (p.1.votes.map fun v => (v.candidate_id, v.position, v.receipt_id), p.2))
      = .ok ([(10, none, "VOTE-2025-AB12CD34EF"), (20, none, "VOTE-2025-AB12CD34EF")],
             "VOTE-2025-AB12CD34EF")
  ∧ dbBase.candidates.map (fun c => (c.id, c.position))
      = [(10, "President"), (20, "VicePresident")]
  ∧ votes_position_not_null
      (cast_vote_result_db dbBase voterAl 1 [10, 20] 50 "VOTE-2025-AB12CD34EF" 1).votes
      = false :=
  ⟨rfl, rfl, rfl⟩

/-! ### C2 -/

/-- Commit-time table state for the race scenario: a concurrent `cast_vote`
by the same voter for the same election committed one row (with the `none`
position the code always produces) after this request's snapshot was read
from `dbBase`. -/
def dbCommitRace : DB :=
  { dbBase with votes := [⟨5, 1, 10, 1, none, 40, "VOTE-2025-OTHER00000"⟩] }

/-- C2: in a check/insert race the pre-check passes on the snapshot, the
insert then violates `uq_user_election_position_vote` at commit time, and —
because `db.commit()` in `cast_vote` is not wrapped in any exception
handler — the outcome is the raw `storageError`, not the domain Conflict
(`alreadyVoted`) rejection, refuting the claim that the violation is caught
and translated. -/
theorem c2_commit_conflict_uncaught :
    cast_vote_checks dbBase voterAl 1 [20] 50 = none
  ∧ uq_user_election_position_vote
      (dbCommitRace.votes ++ cast_vote_rows voterAl 1 [20] 50 "VOTE-2025-AB12CD34EF" 6)
      = false
  ∧ cast_vote_tx dbBase dbCommitRace voterAl 1 [20] 50 "VOTE-2025-AB12CD34EF" 6
      = .storageError
  ∧ CastOutcome.storageError ≠ .httpError .alreadyVoted :=
  ⟨rfl, rfl, rfl, by decide⟩

/-! ### C3 -/

/-- C3, counterexample: the admin's `cast_vote` attempt fails the role check
(a validation failure), yet the state after the request contains no
AuditLog entry at all — in particular none with status `failed` — refuting
the claim that every validation failure appends a failed audit entry. -/
theorem c3_failed_cast_writes_no_audit :
    cast_vote dbBase adminAd 1 [10, 20] 50 "VOTE-2025-AB12CD34EF" 1 = .error .forbidden
  ∧ (cast_vote_result_db dbBase adminAd 1 [10, 20] 50 "VOTE-2025-AB12CD34EF" 1).audit_logs
      = [] :=
  ⟨rfl, rfl⟩

/-- C3, amended: a `cast_vote` call failing any validation step raises that
check's error and leaves the database completely unchanged — no Vote row is
created or modified, and no AuditLog entry (failed or otherwise) is
appended either. -/
theorem c3_validation_failure_no_mutation_no_audit
    (db : DB) (u : User) (eid : Nat) (cids : List Nat) (now : Int)
    (r : String) (k : Nat) (e : VoteError)
    (h : cast_vote_checks db u eid cids now = some e) :
    cast_vote db u eid cids now r k = .error e
  ∧ cast_vote_result_db db u eid cids now r k = db := by
  have hcv : cast_vote db u eid cids now r k = .error e := by
    unfold cast_vote
    rw [h]
  refine ⟨hcv, ?_⟩
  unfold cast_vote_result_db
  rw [hcv]

/-- C3, witness: the amended theorem at the admin's failing call. -/
theorem c3_validation_failure_witness :
    cast_vote dbBase adminAd 2 [] 0 "r" 1 = .error .forbidden
  ∧ cast_vote_result_db dbBase adminAd 2 [] 0 "r" 1 = dbBase :=
  c3_validation_failure_no_mutation_no_audit dbBase adminAd 2 [] 0 "r" 1 .forbidden rfl

/-! ### C4 -/

/-- C4: a voter who already has any Vote row for the election — whatever its
position — is rejected with the duplicate-vote Conflict (`alreadyVoted`,
the spec taxonomy's `Conflict`) for every `candidate_ids` list, i.e. before
any candidate validation: the gate is per-(user, election), coarser than
the per-(user, election, position) storage constraint. -/
theorem c4_duplicate_gate_per_election
    (db : DB) (u : User) (eid : Nat) (cids : List Nat) (now : Int)
    (r : String) (k : Nat) (el : Election) (v : Vote)
    (hrole : u.role = "voter")
    (hfind : db.elections.find? (fun e => e.id == eid) = some el)
    (hstart : el.start_date.instant ≤ now) (hend : now ≤ el.end_date.instant)
    (hv : v ∈ db.votes) (hvu : v.user_id = u.id) (hve : v.election_id = eid) :
    cast_vote db u eid cids now r k = .error .alreadyVoted := by
  have hsome : (db.votes.find? (fun w =>
      w.user_id == u.id && w.election_id == eid)).isSome = true :=
    find?_isSome_of_mem hv (by simp [hvu, hve])
  have hchecks : cast_vote_checks db u eid cids now = some .alreadyVoted := by
    unfold cast_vote_checks
    rw [hrole, hfind]
    simp [hsome, hstart, hend]
  unfold cast_vote
  rw [hchecks]

/-- State in which `voterAl` already holds one Vote row for election 1 on
position President. -/
def dbVoted : DB :=
  { dbBase with votes := [⟨3, 1, 10, 1, some "President", 5, "VOTE-2025-1111111111"⟩] }

/-- C4, witness: the already-voted voter is rejected even when asking to
vote for the VicePresident candidate — a different position than the
recorded vote. -/
theorem c4_duplicate_gate_witness :
    cast_vote dbVoted voterAl 1 [20] 50 "VOTE-2025-AB12CD34EF" 4
      = .error .alreadyVoted :=
  c4_duplicate_gate_per_election dbVoted voterAl 1 [20] 50 "VOTE-2025-AB12CD34EF" 4
    electionGE ⟨3, 1, 10, 1, some "President", 5, "VOTE-2025-1111111111"⟩
    rfl rfl (by decide) (by decide) (by decide) rfl rfl

/-! ### C5 -/

/-- An election persisted by `create_election` whose end (tick 0) precedes
its start (tick 2) — nothing in the code rejects such dates. -/
def electionDegenerate : Election :=
  (create_election ⟨[], [], [], [], []⟩ "ad@x.com" "T" ⟨2, none⟩ ⟨0, none⟩ 1 7).2

/-- C5, counterexample: for the persisted degenerate election, at a time
strictly after `end_date` the derived phase is `upcoming`, not `ended` —
refuting "ended iff now > end_date" as stated over every election. -/
theorem c5_now_after_end_not_ended :
    electionDegenerate
      ∈ (create_election ⟨[], [], [], [], []⟩ "ad@x.com" "T"
          ⟨2, none⟩ ⟨0, none⟩ 1 7).1.elections
  ∧ electionDegenerate.end_date.instant < 1
  ∧ get_election_status electionDegenerate 1 = "upcoming" :=
  ⟨by decide, by decide, rfl⟩

/-- C5, amended: for every election with `start_date ≤ end_date` (the data
model's invariant, though creation does not enforce it), the derived phase
is the pure function of `(start_date, end_date, now)` claimed: upcoming iff
now < start, ended iff now > end, active otherwise — the three phases
partition the timeline into three contiguous, non-overlapping intervals. -/
theorem c5_phase_partition (el : Election) (now : Int)
    (h : el.start_date.instant ≤ el.end_date.instant) :
    (get_election_status el now = "upcoming" ↔ now < el.start_date.instant)
  ∧ (get_election_status el now = "ended" ↔ el.end_date.instant < now)
  ∧ (get_election_status el now = "active" ↔
      el.start_date.instant ≤ now ∧ now ≤ el.end_date.instant) := by
  unfold get_election_status
  split_ifs with h1 h2
  · exact ⟨iff_of_true rfl (by omega), iff_of_false (by decide) (by omega),
      iff_of_false (by decide) (by omega)⟩
  · exact ⟨iff_of_false (by decide) (by omega), iff_of_true rfl (by omega),
      iff_of_false (by decide) (by omega)⟩
  · exact ⟨iff_of_false (by decide) (by omega), iff_of_false (by decide) (by omega),
      iff_of_true rfl (by omega)⟩

/-- C5, witness: the partition theorem at the well-formed election
`electionGE` and tick 50 (inside the active window). -/
theorem c5_phase_partition_witness :
    (get_election_status electionGE 50 = "upcoming" ↔
      (50:Int) < electionGE.start_date.instant)
  ∧ (get_election_status electionGE 50 = "ended" ↔
      electionGE.end_date.instant < 50)
  ∧ (get_election_status electionGE 50 = "active" ↔
      electionGE.start_date.instant ≤ 50 ∧ (50:Int) ≤ electionGE.end_date.instant) :=
  c5_phase_partition electionGE 50 (by decide)

/-! ### C6 -/

/-- Overwriting an election's stored status does not change the verdict of
any `cast_vote` validation step: the gating reads only `start_date` and
`end_date` (recomputed against `now`), never the `status` column. -/
theorem cast_vote_checks_ignores_stored_status
    (db : DB) (eid₀ : Nat) (σ : String) (u : User) (eid : Nat)
    (cids : List Nat) (now : Int) :
    cast_vote_checks (set_election_status db eid₀ σ) u eid cids now
      = cast_vote_checks db u eid cids now := by
  unfold cast_vote_checks set_election_status
  dsimp only
  have hfind := find?_map_of_pred_eq
    (fun e : Election => if e.id == eid₀ then { e with status := σ } else e)
    (fun e => e.id == eid)
    (by intro a; dsimp only; split <;> rfl) db.elections
  rw [hfind]
  cases hfe : db.elections.find? (fun e => e.id == eid) with
  | none => rfl
  | some e =>
    have h1 : (if e.id == eid₀ then { e with status := σ } else e).start_date
        = e.start_date := by split <;> rfl
    have h2 : (if e.id == eid₀ then { e with status := σ } else e).end_date
        = e.end_date := by split <;> rfl
    simp only [Option.map_some', h1, h2]

/-- C6: two runs of `cast_vote` on states that differ only in one
election's persisted `status` field produce the same outcome — the same
raised error or the same receipt — and on success the same committed rows:
the final states again differ only in that status field.  Voting
permission is decided solely by the phase recomputed from
`start_date`/`end_date` against `now`, never by the stored status. -/
theorem c6_cast_vote_ignores_stored_status
    (db : DB) (eid₀ : Nat) (σ : String) (u : User) (eid : Nat)
    (cids : List Nat) (now : Int) (r : String) (k : Nat) :
    cast_vote (set_election_status db eid₀ σ) u eid cids now r k
      = (cast_vote db u eid cids now r k).map
          (fun p => (set_election_status p.1 eid₀ σ, p.2)) := by
  unfold cast_vote
  rw [cast_vote_checks_ignores_stored_status]
  cases hc : cast_vote_checks db u eid cids now with
  | some e => rfl
  | none => rfl

/-! ### C7 -/

/-- An election persisted by `create_election` whose start (tick 5) lies
after its end (tick 3). -/
def electionBackwards : Election :=
  (create_election ⟨[], [], [], [], []⟩ "ad@x.com" "B" ⟨5, none⟩ ⟨3, none⟩ 0 9).2

/-- C7, counterexample: `create_election` called with `start >= end` is not
rejected — the election is persisted with `end_date` before `start_date`,
refuting the claim that such calls are rejected and that persisted
elections always satisfy `start_date < end_date`. -/
theorem c7_start_ge_end_not_rejected :
    electionBackwards
      ∈ (create_election ⟨[], [], [], [], []⟩ "ad@x.com" "B"
          ⟨5, none⟩ ⟨3, none⟩ 0 9).1.elections
  ∧ electionBackwards.end_date.instant < electionBackwards.start_date.instant :=
  ⟨by decide, by decide⟩

/-- C7, amended: `create_election` does normalize both timestamps to UTC
(the stored dates are UTC-tagged and denote the same instants as the
inputs), but it never rejects `start >= end`: the row is always appended,
so a persisted election need not satisfy `start_date < end_date`. -/
theorem c7_create_election_normalizes_utc (db : DB) (adm t : String)
    (s e : Dt) (now : Int) (k : Nat) :
    (create_election db adm t s e now k).2.start_date.tz = some 0
  ∧ (create_election db adm t s e now k).2.end_date.tz = some 0
  ∧ (create_election db adm t s e now k).2.start_date.instant = s.instant
  ∧ (create_election db adm t s e now k).2.end_date.instant = e.instant
  ∧ (create_election db adm t s e now k).1.elections
      = db.elections ++ [(create_election db adm t s e now k).2] := by
  obtain ⟨sw, stz⟩ := s
  obtain ⟨ew, etz⟩ := e
  cases stz <;> cases etz <;>
    exact ⟨rfl, rfl, by simp [create_election, to_utc, Dt.instant],
      by simp [create_election, to_utc, Dt.instant], rfl⟩

/-! ### C8 -/

/-- C8: with level `"HND2"` (an HND-type program) and no course, the
registration fails with `invalidInput`; the same call with a course
succeeds — inserting the user with role `voter` no matter which `role`
value the request carried — under the hypothesis that the uniqueness
pre-check finds no collision. -/
theorem c8_register_hnd_course_and_role
    (db : DB) (nm email pw : String) (sid : Option String) (ρ : String)
    (hashed : String) (newId : Nat)
    (hfresh : db.users.find? (fun x =>
        x.email == email || sa_eq x.student_id sid) = none) :
    register_user db ⟨nm, email, pw, sid, some "HND2", none, ρ⟩ hashed newId
      = .error .invalidInput
  ∧ register_user db ⟨nm, email, pw, sid, some "HND2", some "CS", ρ⟩ hashed newId
      = .ok ({ db with
                users := db.users ++
                  [⟨newId, nm, email, sid, some "HND2", some "CS", hashed, "voter"⟩]
                audit_logs := db.audit_logs ++
                  [{ user_email := email, action := "User Registration",
                     status := "success",
                     details := s!"Registered voter {email}" }] },
             ⟨newId, nm, email, sid, some "HND2", some "CS", hashed, "voter"⟩) := by
  have hgate1 : (pyTruthy (some "HND2")
      && strStartsWith (pyUpper ((some "HND2").getD "")) "HND"
      && !pyTruthy (none : Option String)) = true := by decide
  have hgate2 : (pyTruthy (some "HND2")
      && strStartsWith (pyUpper ((some "HND2").getD "")) "HND"
      && !pyTruthy (some "CS")) = false := by decide
  constructor
  · unfold register_user
    dsimp only
    rw [hgate1]
    simp
  · unfold register_user
    dsimp only
    rw [hgate2, hfresh]
    simp

/-- C8, witness: the theorem on the empty store, with the request asking
for role `admin`. -/
theorem c8_register_witness :
    register_user ⟨[], [], [], [], []⟩
        ⟨"Al", "al@x.com", "pw", none, some "HND2", none, "admin"⟩ "h" 1
      = .error .invalidInput
  ∧ register_user ⟨[], [], [], [], []⟩
        ⟨"Al", "al@x.com", "pw", none, some "HND2", some "CS", "admin"⟩ "h" 1
      = .ok (⟨[⟨1, "Al", "al@x.com", none, some "HND2", some "CS", "h", "voter"⟩],
              [], [], [],
              [⟨"al@x.com", "User Registration", "success",
                "Registered voter al@x.com"⟩]⟩,
             ⟨1, "Al", "al@x.com", none, some "HND2", some "CS", "h", "voter"⟩) :=
  c8_register_hnd_course_and_role ⟨[], [], [], [], []⟩ "Al" "al@x.com" "pw"
    none "admin" "h" 1 rfl

/-! ### C9 -/

/-- C9: `authenticate_user` returns `none` both when no user matches the
identifier (by email or student_id) and when a user matches but the
password fails verification — the two failure causes produce the same
value and are indistinguishable to the caller. -/
theorem c9_authenticate_returns_none
    (db : DB) (verify : String → String → Bool) (identifier password : String)
    (h : db.users.find? (fun u =>
          u.email == identifier || u.student_id == some identifier) = none
       ∨ ∃ u, db.users.find? (fun u =>
            u.email == identifier || u.student_id == some identifier) = some u
          ∧ verify password u.hashed_password = false) :
    authenticate_user db verify identifier password = none := by
  unfold authenticate_user
  rcases h with h | ⟨u, hu, hv⟩
  · rw [h]
  · rw [hu]
    simp [hv]

/-- C9, witness: the matched-user-wrong-password case, with equality as the
stand-in verifier. -/
theorem c9_authenticate_witness :
    authenticate_user ⟨[voterAl], [], [], [], []⟩ (fun p hp => p == hp)
      "al@x.com" "wrongpw" = none :=
  c9_authenticate_returns_none ⟨[voterAl], [], [], [], []⟩ (fun p hp => p == hp)
    "al@x.com" "wrongpw" (Or.inr ⟨voterAl, rfl, rfl⟩)

/-! ### C10 -/

/-- C10: when registration is requested with `student_id` omitted and some
existing user row (e.g. an admin-created auditor) has a NULL `student_id`,
the uniqueness pre-check — whose SQLAlchemy comparison against `None`
renders as `IS NULL` — matches that row, so the call fails with `conflict`
even though the new email is taken by nobody. -/
theorem c10_null_student_id_conflict
    (db : DB) (user_in : UserCreate) (hashed : String) (newId : Nat) (w : User)
    (hw : w ∈ db.users) (hwsid : w.student_id = none)
    (hsid : user_in.student_id = none)
    (hgate : (pyTruthy user_in.level
        && strStartsWith (pyUpper (user_in.level.getD "")) "HND"
        && !pyTruthy user_in.course) = false)
    (_hemail : ∀ x ∈ db.users, x.email ≠ user_in.email) :
    register_user db user_in hashed newId = .error .conflict := by
  have hsome : (db.users.find? (fun x =>
      x.email == user_in.email || sa_eq x.student_id user_in.student_id)).isSome
      = true :=
    find?_isSome_of_mem hw (by simp [hsid, sa_eq, hwsid])
  unfold register_user
  simp [hgate, hsome]

/-- Store produced by an admin creating one auditor on an empty database:
the auditor row has a NULL `student_id`. -/
def dbWithAuditor : DB :=
  match create_auditor ⟨[], [], [], [], []⟩ "ad@x.com"
      ⟨"Au", "au@x.com", "pw", none, none, none, "auditor"⟩ "h" 1 with
  | .ok p => p.1
  | .error _ => ⟨[], [], [], [], []⟩

/-- C10, witness: registering a brand-new voter without a student_id after
an auditor exists fails with `conflict`, although the email is fresh. -/
theorem c10_null_student_id_witness :
    register_user dbWithAuditor ⟨"Al", "al@x.com", "pw", none, none, none, "voter"⟩
      "h" 2 = .error .conflict :=
  c10_null_student_id_conflict dbWithAuditor
    ⟨"Al", "al@x.com", "pw", none, none, none, "voter"⟩ "h" 2
    ⟨1, "Au", "au@x.com", none, none, none, "h", "auditor"⟩
    (by decide) rfl rfl rfl (by decide)

end EVoting
